import Mathlib

/-!
Verification of the abacus-counting service (`app.py`).

We give a shallow embedding of the pure logic of the script:

* `normalize_counts_map` (app.py lines 129-138): coercion and clamping of the
  model's reply into the fixed ten-category counts map;
* `parse_json_safely` (lines 115-127): defensive JSON recovery from free text;
* `gemini_generate_json` (lines 143-148): the text-to-dict step of the model
  call (the network part is abstracted as the reply text);
* the geometry of `build_right_only_sprite` (lines 166-220): margins, bands
  and the right-crop split;
* the file-lifecycle skeleton of `api_contar` (lines 223-273).

Python values decoded from JSON are modelled by the inductive type `Json`.
Machine arithmetic: Python's unbounded `int` is `Int`/`Nat`.  The script's
float constants (0.08, 0.92, 0.55) are embedded at their exact rational
values (2/25, 23/25, 11/20); evaluating the script's float expressions
`int(h*0.08)`, `int(h*(1-0.08))` and `int(w - int(w*0.55))` agrees with the
rational floors for every dimension below two million pixels (checked
exhaustively), so the embedding is exact on the whole realistic domain.
The shifted-centre value `int(w*(0.5-0.035))` does *not* coincide with
`⌊93w/200⌋` for every `w` (the double 0.5-0.035 is slightly below 0.465), so
that single quantity is kept as an abstract integer parameter where it
appears.
-/

/-- The ten fixed category labels, top row to bottom row (app.py `LINES`,
lines 34-37). -/
def LINES : List String :=
  ["aerosaculite", "celulite", "contusao", "hematomas", "hepatite",
   "micoplasmose", "pericardite", "peritonite", "salmonelose", "tuberculose"]

/-- A JSON-decoded Python value.  Integral JSON numbers decode to Python
`int` (`num`); numbers written with a fraction or exponent decode to Python
`float`, carried exactly as `m · 10^e` (`fnum`); `nonfinite neg nanQ` stands
for the floats produced by the `Infinity` / `-Infinity` / `NaN` literals that
Python's `json.loads` accepts. -/
inductive Json where
  | null : Json
  | bool (b : Bool) : Json
  | num (n : Int) : Json
  | fnum (m : Int) (e : Int) : Json
  | nonfinite (neg : Bool) (nanQ : Bool) : Json
  | str (s : String) : Json
  | arr (xs : List Json) : Json
  | obj (kvs : List (String × Json)) : Json

/-- Python `dict.get k`: the value of the last binding of `k` (later JSON
duplicate keys overwrite earlier ones), or `none`. -/
def dictGet (kvs : List (String × Json)) (k : String) : Option Json :=
  (kvs.reverse.find? (fun p => p.1 == k)).map (fun p => p.2)

/-- Python whitespace as stripped by `str.strip` (ASCII part). -/
def pyIsSpace (c : Char) : Bool :=
  c == ' ' || c == '\t' || c == '\n' || c == '\x0d' || c == '\x0b' || c == '\x0c'

/-- `str.strip()`: drop leading and trailing whitespace. -/
def pyStrip (cs : List Char) : List Char :=
  ((cs.dropWhile pyIsSpace).reverse.dropWhile pyIsSpace).reverse

/-- Digit-string value for Python `int(str)`: a nonempty ASCII digit run in
which a single `_` may stand between two digits (Python 3 underscore
grouping).  `acc` is the value of the digits already read. -/
def pyDigitsAux (acc : Nat) : List Char → Option Nat
  | [] => some acc
  | c :: cs =>
    if c.isDigit then pyDigitsAux (acc * 10 + (c.toNat - 48)) cs
    else if c == '_' then
      match cs with
      | d :: cs' =>
        if d.isDigit then pyDigitsAux (acc * 10 + (d.toNat - 48)) cs' else none
      | [] => none
    else none

/-- Python `int(s)` on a string: strip whitespace, optional sign, then a
digit run (ASCII digits; Python additionally accepts unicode digits, which no
claim exercises).  `none` models `ValueError`. -/
def pyStrToInt (cs : List Char) : Option Int :=
  match pyStrip cs with
  | '-' :: rest =>
    match rest with
    | c :: _ => if c.isDigit then (pyDigitsAux 0 rest).map (fun n => -(n : Int)) else none
    | [] => none
  | '+' :: rest =>
    match rest with
    | c :: _ => if c.isDigit then (pyDigitsAux 0 rest).map (fun n => (n : Int)) else none
    | [] => none
  | c :: rest =>
    if c.isDigit then (pyDigitsAux 0 (c :: rest)).map (fun n => (n : Int)) else none
  | [] => none

/-- Truncation toward zero of `m · 10^e`, the value `int()` takes on a float
carried exactly (`Int.div` truncates toward zero, as Python `int(float)`
does). -/
def truncPow10 (m : Int) (e : Int) : Int :=
  if 0 ≤ e then m * (10 : Int) ^ e.toNat else Int.tdiv m ((10 : Int) ^ (-e).toNat)

/-- Python `int(v)` on a JSON-decoded value: `some` the integer, `none` when
`int()` raises (`None`, lists, dicts, non-numeric strings, `nan`/`inf`). -/
def pyInt : Json → Option Int
  | .null => none
  | .bool b => some (if b then 1 else 0)
  | .num n => some n
  | .fnum m e => some (truncPow10 m e)
  | .nonfinite _ _ => none
  | .str s => pyStrToInt s.toList
  | .arr _ => none
  | .obj _ => none

/-- `max(0, min(10, v))` (app.py line 137). -/
def clamp10 (v : Int) : Int := max 0 (min 10 v)

/-- app.py lines 129-138: for each label in `LINES`, read the raw value
(default `0`), coerce with `int()` (default `0` on failure), clamp to
`[0, 10]`. -/
def normalize_counts_map (raw : List (String × Json)) : List (String × Int) :=
  LINES.map (fun k => (k, clamp10 ((pyInt ((dictGet raw k).getD (.num 0))).getD 0)))

/-- Concrete reply used for the clamp-boundary claim: `-3`, `15` and the
non-numeric string `"abc"`. -/
def c3input : List (String × Json) :=
  [("aerosaculite", .num (-3)), ("celulite", .num 15), ("contusao", .str "abc")]

/-- app.py line 172: `top = int(h * TOP_RATIO)` with `TOP_RATIO = 0.08`
(exact value 2/25). -/
def sprite_top (h : Nat) : Nat := 2 * h / 25

/-- app.py line 173: `bot = int(h * (1 - BOTTOM_RATIO))` with
`BOTTOM_RATIO = 0.08` (exact value 23/25). -/
def sprite_bot_raw (h : Nat) : Nat := 23 * h / 25

/-- app.py lines 172-175: the usable vertical region `(top, bot)`; when the
trimmed region would be at most 10 px tall (`bot <= top + 10`), fall back to
the full image height `(0, h)`. -/
def sprite_region (h : Nat) : Nat × Nat :=
  let top := sprite_top h
  let bot := sprite_bot_raw h
  if bot ≤ top + 10 then (0, h) else (top, bot)

/-- app.py line 177: `usable_h = bot - top`. -/
def usable_h (h : Nat) : Nat := (sprite_region h).2 - (sprite_region h).1

/-- app.py line 178: `band_h = max(1, usable_h // 10)`. -/
def band_h (h : Nat) : Nat := max 1 (usable_h h / 10)

/-- app.py line 189: `y1 = top + i * band_h` for band `i` (0-based). -/
def band_y1 (h i : Nat) : Nat := (sprite_region h).1 + i * band_h h

/-- app.py line 190: `y2 = bot if i == 9 else y1 + band_h`: the last band
extends to the exact bottom of the usable region. -/
def band_y2 (h i : Nat) : Nat :=
  if i = 9 then (sprite_region h).2 else band_y1 h i + band_h h

/-- app.py lines 194-195: `center_x = int(w * (0.5 - CENTER_SHIFT_PCT))`
clamped by `max(0, min(w-1, center_x))`.  The float product is the abstract
integer `c0` (see the header note on 0.5 - 0.035). -/
def center_x (w : Nat) (c0 : Int) : Nat :=
  (max 0 (min ((w : Int) - 1) c0)).toNat

/-- app.py line 198: `right_x0 = max(0, int(w - int(w * RIGHT_FRACTION)))`
with `RIGHT_FRACTION = 0.55` (11/20 exactly); the outer `max(0, ·)` is inert
since `int(w*0.55) <= w`. -/
def right_start45 (w : Nat) : Nat := w - 11 * w / 20

/-- app.py line 199: `right_x0 = min(right_x0, center_x)`. -/
def right_x0 (w : Nat) (c0 : Int) : Nat := min (right_start45 w) (center_x w c0)

/-- app.py line 200: each band is cropped from `right_x0` to the full
width `w`. -/
def right_crop_bounds (w : Nat) (c0 : Int) : Nat × Nat := (right_x0 w c0, w)

/-- JSON whitespace accepted by the decoder. -/
def jsonWs (c : Char) : Bool :=
  c == ' ' || c == '\t' || c == '\n' || c == '\x0d'

/-- Skip decoder whitespace. -/
def skipWs (cs : List Char) : List Char := cs.dropWhile jsonWs

/-- Hexadecimal digit value, for string escapes. -/
def hexVal (c : Char) : Option Nat :=
  if c.isDigit then some (c.toNat - 48)
  else if 'a' ≤ c ∧ c ≤ 'f' then some (c.toNat - 87)
  else if 'A' ≤ c ∧ c ≤ 'F' then some (c.toNat - 55)
  else none

/-- Scan a JSON string body after the opening quote: returns the decoded
string and the input after the closing quote.  Handles the escapes
`\" \\ \/ \b \f \n \r \t` and `\uXXXX` (surrogate pairs combined; a lone
surrogate — which Python would keep — becomes U+FFFD, as Lean's `Char`
cannot carry it; no claim exercises this).  Raw control characters are
rejected, as in Python's strict mode.  `acc` holds the decoded characters in
reverse. -/
def scanStr (acc : List Char) : List Char → Option (String × List Char)
  | [] => none
  | '"' :: rest => some (String.mk acc.reverse, rest)
  | '\\' :: rest =>
    match rest with
    | [] => none
    | e :: rest' =>
      if e == '"' then scanStr ('"' :: acc) rest'
      else if e == '\\' then scanStr ('\\' :: acc) rest'
      else if e == '/' then scanStr ('/' :: acc) rest'
      else if e == 'b' then scanStr ('\x08' :: acc) rest'
      else if e == 'f' then scanStr ('\x0c' :: acc) rest'
      else if e == 'n' then scanStr ('\n' :: acc) rest'
      else if e == 'r' then scanStr ('\x0d' :: acc) rest'
      else if e == 't' then scanStr ('\t' :: acc) rest'
      else if e == 'u' then
        match rest' with
        | h1 :: h2 :: h3 :: h4 :: rest2 =>
          match hexVal h1, hexVal h2, hexVal h3, hexVal h4 with
          | some a, some b, some c, some d =>
            let n := ((a * 16 + b) * 16 + c) * 16 + d
            if 0xd800 ≤ n ∧ n ≤ 0xdbff then
              match rest2 with
              | '\\' :: 'u' :: l1 :: l2 :: l3 :: l4 :: rest3 =>
                match hexVal l1, hexVal l2, hexVal l3, hexVal l4 with
                | some a2, some b2, some c2, some d2 =>
                  let m := ((a2 * 16 + b2) * 16 + c2) * 16 + d2
                  if 0xdc00 ≤ m ∧ m ≤ 0xdfff then
                    scanStr (Char.ofNat (0x10000 + (n - 0xd800) * 1024 + (m - 0xdc00)) :: acc) rest3
                  else
                    scanStr ((if 0xd800 ≤ m ∧ m ≤ 0xdfff then '\uFFFD' else Char.ofNat m)
                      :: '\uFFFD' :: acc) rest3
                | _, _, _, _ => none
              | other => scanStr ('\uFFFD' :: acc) other
            else if 0xdc00 ≤ n ∧ n ≤ 0xdfff then scanStr ('\uFFFD' :: acc) rest2
            else scanStr (Char.ofNat n :: acc) rest2
          | _, _, _, _ => none
        | _ => none
      else none
  | c :: rest => if c.toNat < 32 then none else scanStr (c :: acc) rest

/-- Value of an ASCII digit run. -/
def digitsToNat (ds : List Char) : Nat :=
  ds.foldl (fun a c => a * 10 + (c.toNat - 48)) 0

/-- Scan the optional fraction part `.digits` of a JSON number; returns the
fraction digits (empty when absent) and the rest. -/
def scanFrac : List Char → Option (List Char × List Char)
  | '.' :: rest =>
    let p := rest.span (fun d => d.isDigit)
    if p.1.isEmpty then none else some (p.1, p.2)
  | cs => some ([], cs)

/-- Scan the optional exponent part of a JSON number; returns whether an
exponent was present, its value, and the rest. -/
def scanExp : List Char → Option (Bool × Int × List Char)
  | c :: rest =>
    if c == 'e' || c == 'E' then
      let sp : Int × List Char :=
        match rest with
        | '+' :: r => (1, r)
        | '-' :: r => (-1, r)
        | r => (1, r)
      let p := sp.2.span (fun d => d.isDigit)
      if p.1.isEmpty then none else some (true, sp.1 * (digitsToNat p.1 : Int), p.2)
    else some (false, 0, c :: rest)
  | [] => some (false, 0, [])

/-- Scan a JSON number `-? (0 | [1-9][0-9]*) frac? exp?`.  An integral
literal yields a Python `int` (`Json.num`); a fraction or exponent yields a
float, carried exactly as mantissa times a power of ten (`Json.fnum`). -/
def scanNum (cs : List Char) : Option (Json × List Char) :=
  let sp : Bool × List Char :=
    match cs with
    | '-' :: rest => (true, rest)
    | _ => (false, cs)
  let ip := sp.2.span (fun d => d.isDigit)
  if ip.1.isEmpty then none
  else if 1 < ip.1.length ∧ ip.1.head? = some '0' then none
  else
    match scanFrac ip.2 with
    | none => none
    | some (fds, cs2) =>
      match scanExp cs2 with
      | none => none
      | some (hasExp, ev, cs3) =>
        let mant : Int := (digitsToNat (ip.1 ++ fds) : Nat)
        let m : Int := if sp.1 then -mant else mant
        if fds.isEmpty ∧ hasExp = false then some (.num m, cs3)
        else some (.fnum m (ev - (fds.length : Int)), cs3)

/-- Decoder mode: a value, the members of an object being read, or the
elements of an array being read (accumulators in decode order). -/
inductive PMode where
  | val : PMode
  | objMems (acc : List (String × Json)) : PMode
  | arrElems (acc : List Json) : PMode

/-- The recursive part of `json.loads`: one fuel-indexed decode engine.
`objMems`/`arrElems` sit just after `{` / `[` or after a comma.  Python's
decoder also accepts the non-standard literals handled in the `val` arm.
Each recursive call consumes input, so fuel `2·|input| + 2` never runs
out on any input. -/
def parseStep : Nat → PMode → List Char → Option (Json × List Char)
  | 0, _, _ => none
  | Nat.succ f, PMode.val, cs =>
    match skipWs cs with
    | '{' :: rest =>
      match skipWs rest with
      | '}' :: rest' => some (.obj [], rest')
      | _ => parseStep f (.objMems []) rest
    | '[' :: rest =>
      match skipWs rest with
      | ']' :: rest' => some (.arr [], rest')
      | _ => parseStep f (.arrElems []) rest
    | '"' :: rest => (scanStr [] rest).map (fun p => (.str p.1, p.2))
    | 't' :: 'r' :: 'u' :: 'e' :: rest => some (.bool true, rest)
    | 'f' :: 'a' :: 'l' :: 's' :: 'e' :: rest => some (.bool false, rest)
    | 'n' :: 'u' :: 'l' :: 'l' :: rest => some (.null, rest)
    | 'N' :: 'a' :: 'N' :: rest => some (.nonfinite false true, rest)
    | 'I' :: 'n' :: 'f' :: 'i' :: 'n' :: 'i' :: 't' :: 'y' :: rest =>
      some (.nonfinite false false, rest)
    | '-' :: 'I' :: 'n' :: 'f' :: 'i' :: 'n' :: 'i' :: 't' :: 'y' :: rest =>
      some (.nonfinite true false, rest)
    | cs' => scanNum cs'
  | Nat.succ f, PMode.objMems acc, cs =>
    match skipWs cs with
    | '"' :: rest =>
      match scanStr [] rest with
      | none => none
      | some (k, rest1) =>
        match skipWs rest1 with
        | ':' :: rest2 =>
          match parseStep f PMode.val rest2 with
          | none => none
          | some (v, rest3) =>
            match skipWs rest3 with
            | ',' :: rest4 => parseStep f (PMode.objMems (acc ++ [(k, v)])) rest4
            | '}' :: rest4 => some (.obj (acc ++ [(k, v)]), rest4)
            | _ => none
        | _ => none
    | _ => none
  | Nat.succ f, PMode.arrElems acc, cs =>
    match parseStep f PMode.val cs with
    | none => none
    | some (v, rest) =>
      match skipWs rest with
      | ',' :: rest1 => parseStep f (PMode.arrElems (acc ++ [v])) rest1
      | ']' :: rest1 => some (.arr (acc ++ [v]), rest1)
      | _ => none

/-- `json.loads`: decode one value and require only whitespace after it;
`none` models a raised `JSONDecodeError`. -/
def json_loads (cs : List Char) : Option Json :=
  match parseStep (2 * cs.length + 2) PMode.val cs with
  | some (v, rest) => if (skipWs rest).isEmpty then some v else none
  | none => none

/-- Python `str.replace(pat, rep)`: replace every non-overlapping occurrence
left to right.  `fuel` is consumed one character (or more) per step, so
`|input| + 1` always suffices. -/
def pyReplace : Nat → List Char → List Char → List Char → List Char
  | 0, _, _, cs => cs
  | Nat.succ f, pat, rep, cs =>
    match cs with
    | [] => []
    | c :: rest =>
      if !pat.isEmpty && pat.isPrefixOf cs then
        rep ++ pyReplace f pat rep (cs.drop pat.length)
      else c :: pyReplace f pat rep rest

/-- app.py lines 116-117: `(text or "").strip()`, remove every occurrence of
the fence markers, strip again. -/
def fence_strip (t : Option String) : List Char :=
  let cs0 := pyStrip (t.getD "").toList
  let cs1 := pyReplace (cs0.length + 1) "```json".toList [] cs0
  let cs2 := pyReplace (cs1.length + 1) "```".toList [] cs1
  pyStrip cs2

/-- app.py line 121: the greedy fallback `re.search` with the brace-to-brace
pattern: the slice from the first `{` to the last `}`, provided the `}` comes
after the `{` (exactly the set of inputs the regex matches). -/
def braceSlice (cs : List Char) : Option (List Char) :=
  match cs.findIdx? (fun c => c == '{'), cs.reverse.findIdx? (fun c => c == '}') with
  | some i, some jr =>
    let j := cs.length - 1 - jr
    if i < j then some ((cs.drop i).take (j - i + 1)) else none
  | _, _ => none

/-- app.py lines 115-127: strict parse of the fence-stripped text, then the
brace-slice fallback, then the empty dict.  `none` input models Python
`None` (the `text or ""` guard). -/
def parse_json_safely (t : Option String) : Json :=
  let text := fence_strip t
  match json_loads text with
  | some v => v
  | none =>
    match braceSlice text with
    | none => .obj []
    | some sub =>
      match json_loads sub with
      | some v => v
      | none => .obj []

/-- app.py lines 146-148: strip the reply text, parse it defensively, and
return the result if it is a dict, else the `{"_raw": text}` annotation. -/
def gemini_generate_json (respText : Option String) : Json :=
  let text := String.mk (pyStrip (respText.getD "").toList)
  let data := parse_json_safely (some text)
  match data with
  | .obj kvs => .obj kvs
  | _ => .obj [("_raw", .str text)]

/-- app.py lines 249-251: `contagem = result.get("contagem", {})` followed by
`normalize_counts_map(contagem)`; `none` models the `AttributeError` Python
raises inside `normalize_counts_map` when `contagem` is not a dict. -/
def counts_from_result (result : Json) : Option (List (String × Int)) :=
  match result with
  | .obj kvs =>
    match (dictGet kvs "contagem").getD (.obj []) with
    | .obj ckvs => some (normalize_counts_map ckvs)
    | _ => none
  | _ => none

/-- The `_raw` annotation of a parse result, when the result is a dict that
carries one. -/
def rawTextField (j : Json) : Option Json :=
  match j with
  | .obj kvs => dictGet kvs "_raw"
  | _ => none

/-- The malformed fenced model reply of the recovery scenario. -/
def c4text : String :=
  "Here is your answer: ```json \x7b\"contagem\": \x7b\"aerosaculite\": 3\x7d\x7d ``` "

/-- A fully valid counts reply: label `i` carries the value `i`. -/
def c9input : List (String × Json) :=
  [("aerosaculite", .num 0), ("celulite", .num 1), ("contusao", .num 2),
   ("hematomas", .num 3), ("hepatite", .num 4), ("micoplasmose", .num 5),
   ("pericardite", .num 6), ("peritonite", .num 7), ("salmonelose", .num 8),
   ("tuberculose", .num 9)]

/-- The values of `c9input`, as a function of the label. -/
def c9val (k : String) : Int := (LINES.indexOf k : Int)

/-- Environment of one `api_contar` request: the (randomized in the source,
abstract here) temp-file names, and whether each fallible external step —
image decoding, the two remote uploads, the model call — succeeds, plus the
model's reply text when it does. -/
structure ReqEnv where
  orig_path : String
  sprite_path : String
  crop_paths : List String
  decode_ok : Bool
  upload_orig_ok : Bool
  upload_sprite_ok : Bool
  generate_ok : Bool
  resp_text : Option String

/-- Outcome of one request: the HTTP status (200 or 500), the local files
created during the request, the files `os.remove` was called on before the
response (each wrapped in try/except-pass, so failures are ignored), and the
normalized counts of a successful run. -/
structure ReqOutcome where
  status : Nat
  created : List String
  remove_attempted : List String
  counts : Option (List (String × Int))
deriving DecidableEq

/-- app.py lines 231-273, control-flow skeleton.  The original is saved
first (line 233); decoding failure raises before the sprite exists.  The
sprite builder then writes the ten crops and the sprite (lines 209-219).
Each later failure — upload (lines 240-241), model call (lines 243-247), or
a non-dict `contagem` making `normalize_counts_map` raise (line 251) — jumps
to the `except` arm (lines 272-273), which returns the 500 payload without
reaching the cleanup loop; only the success path runs the `os.remove` loop
(lines 259-263) over `[path, sprite_path, *crop_paths]` before the 200
response (lines 265-270). -/
def api_contar (env : ReqEnv) : ReqOutcome :=
  let created1 := [env.orig_path]
  if !env.decode_ok then ⟨500, created1, [], none⟩
  else
    let created2 := created1 ++ env.crop_paths ++ [env.sprite_path]
    if !env.upload_orig_ok then ⟨500, created2, [], none⟩
    else if !env.upload_sprite_ok then ⟨500, created2, [], none⟩
    else if !env.generate_ok then ⟨500, created2, [], none⟩
    else
      match counts_from_result (gemini_generate_json env.resp_text) with
      | none => ⟨500, created2, [], none⟩
      | some cs =>
        ⟨200, created2, env.orig_path :: env.sprite_path :: env.crop_paths, some cs⟩

/-- A request whose model call raises (e.g. a timeout after both uploads). -/
def c6envBad : ReqEnv :=
  ⟨"u/orig.jpg", "u/sprite.jpg",
   ["u/r01.jpg", "u/r02.jpg", "u/r03.jpg", "u/r04.jpg", "u/r05.jpg",
    "u/r06.jpg", "u/r07.jpg", "u/r08.jpg", "u/r09.jpg", "u/r10.jpg"],
   true, true, true, false, none⟩

/-- A request in which every step succeeds and the model replies `{}`. -/
def c6envGood : ReqEnv :=
  ⟨"v/orig.jpg", "v/sprite.jpg", ["v/r01.jpg", "v/r02.jpg"],
   true, true, true, true, some "\x7b\x7d"⟩

theorem clamp10_mem (v : Int) : 0 ≤ clamp10 v ∧ clamp10 v ≤ 10 := by
  unfold clamp10
  rcases le_total 10 v with h | h <;> rcases le_total (0 : Int) v with h0 | h0 <;>
    simp [max_def, min_def] <;> split_ifs <;> omega

/-- C1: whatever JSON-decoded object comes in — arbitrary, missing or
non-numeric values — `normalize_counts_map` returns exactly the ten fixed
labels as keys, in order, and every value is an integer in `[0, 10]`. -/
theorem claim1_normalize_shape (raw : List (String × Json)) :
    (normalize_counts_map raw).map Prod.fst = LINES ∧
    (normalize_counts_map raw).all (fun p => decide (0 ≤ p.2 ∧ p.2 ≤ 10)) = true := by
  constructor
  · simp [normalize_counts_map, List.map_map, Function.comp_def]
  · rw [List.all_eq_true]
    intro p hp
    simp only [normalize_counts_map, List.mem_map] at hp
    obtain ⟨k, -, rfl⟩ := hp
    simpa using clamp10_mem _

/-- C3: a reply value of `-3` normalizes to `0`, `15` normalizes to `10`,
and a non-numeric value (the string `"abc"`) normalizes to `0`; absent
labels default to `0`. -/
theorem claim3_clamp_boundary :
    normalize_counts_map c3input =
      [("aerosaculite", 0), ("celulite", 10), ("contusao", 0), ("hematomas", 0),
       ("hepatite", 0), ("micoplasmose", 0), ("pericardite", 0), ("peritonite", 0),
       ("salmonelose", 0), ("tuberculose", 0)] := by
  decide

/-- C2: when the image is tall enough that the fallback does not trigger, the
usable height is `H` minus the top margin (`⌊0.08·H⌋`) and the bottom margin
(`H - ⌊0.92·H⌋` — also 8% of `H`, namely `⌈0.08·H⌉`); the band height is the
usable height divided by 10 with integer division; and the 10th band's bottom
edge is exactly the bottom of the usable region. -/
theorem claim2_sprite_geometry (h : Nat)
    (hbig : sprite_top h + 10 < sprite_bot_raw h) :
    usable_h h = h - sprite_top h - (h - sprite_bot_raw h) ∧
    h - sprite_bot_raw h = (2 * h + 24) / 25 ∧
    band_h h = usable_h h / 10 ∧
    band_y2 h 9 = (sprite_region h).2 ∧
    sprite_region h = (sprite_top h, sprite_bot_raw h) := by
  have hreg : sprite_region h = (sprite_top h, sprite_bot_raw h) := by
    simp only [sprite_region]
    rw [if_neg (by omega)]
  have husable : usable_h h = sprite_bot_raw h - sprite_top h := by
    simp [usable_h, hreg]
  refine ⟨?_, ?_, ?_, ?_, hreg⟩
  · simp only [husable, sprite_top, sprite_bot_raw] at *
    omega
  · simp only [sprite_top, sprite_bot_raw] at *
    omega
  · have h10 : 10 < usable_h h := by
      simp only [husable, sprite_top, sprite_bot_raw] at *
      omega
    have h1 : 1 ≤ usable_h h / 10 := (Nat.one_le_div_iff (by norm_num)).mpr (by omega)
    simpa [band_h] using Nat.max_eq_right h1
  · simp [band_y2]

/-- Witness for C2 at `H = 100`: top 8, bottom boundary 92, usable 84,
band height 8, last band ends at 92. -/
theorem claim2_witness :
    sprite_top 100 + 10 < sprite_bot_raw 100 ∧
    (usable_h 100 = 100 - sprite_top 100 - (100 - sprite_bot_raw 100) ∧
     100 - sprite_bot_raw 100 = (2 * 100 + 24) / 25 ∧
     band_h 100 = usable_h 100 / 10 ∧
     band_y2 100 9 = (sprite_region 100).2 ∧
     sprite_region 100 = (sprite_top 100, sprite_bot_raw 100)) :=
  ⟨by decide, claim2_sprite_geometry 100 (by decide)⟩

/-- C7: if trimming the 8% margins would leave a usable region at most 10 px
tall, the full image height `(0, H)` is used instead; otherwise the trimmed
margins are kept. -/
theorem claim7_degenerate_fallback (h : Nat) :
    (sprite_bot_raw h - sprite_top h ≤ 10 → sprite_region h = (0, h)) ∧
    (10 < sprite_bot_raw h - sprite_top h →
      sprite_region h = (sprite_top h, sprite_bot_raw h)) := by
  have hts : sprite_top h ≤ sprite_bot_raw h :=
    Nat.div_le_div_right (by omega)
  constructor
  · intro hc
    simp only [sprite_region]
    rw [if_pos (by omega)]
  · intro hc
    simp only [sprite_region]
    rw [if_neg (by omega)]

/-- Witness for C7: at `H = 13` the trimmed region is 10 px tall and the full
height is used; at `H = 100` the margins are kept. -/
theorem claim7_witness :
    (sprite_bot_raw 13 - sprite_top 13 ≤ 10 ∧ sprite_region 13 = (0, 13)) ∧
    (10 < sprite_bot_raw 100 - sprite_top 100 ∧
     sprite_region 100 = (sprite_top 100, sprite_bot_raw 100)) :=
  ⟨⟨by decide, (claim7_degenerate_fallback 13).1 (by decide)⟩,
   ⟨by decide, (claim7_degenerate_fallback 100).2 (by decide)⟩⟩

/-- C8: the right-crop start is 45% of `W` from the left edge (the start of
the rightmost 55%, i.e. `W - ⌊0.55·W⌋ = ⌈0.45·W⌉`), unless that exceeds the
clamped shifted centre, in which case the start is pulled back to the shifted
centre; the crop always extends from the start to the full width `W`. -/
theorem claim8_right_crop (w : Nat) (c0 : Int) :
    right_start45 w = (9 * w + 19) / 20 ∧
    (right_start45 w ≤ center_x w c0 → right_x0 w c0 = right_start45 w) ∧
    (center_x w c0 < right_start45 w → right_x0 w c0 = center_x w c0) ∧
    right_crop_bounds w c0 = (right_x0 w c0, w) := by
  refine ⟨?_, ?_, ?_, rfl⟩
  · simp only [right_start45]
    omega
  · intro hc
    simpa [right_x0] using Nat.min_eq_left hc
  · intro hc
    simpa [right_x0] using Nat.min_eq_right (Nat.le_of_lt hc)

/-- Witness for C8 at `W = 1000`: the unclamped start is 450; with the actual
float centre value 464 the start stays 450; with an artificially small centre
value 100 the start is clamped to 100. -/
theorem claim8_witness :
    (right_start45 1000 = (9 * 1000 + 19) / 20 ∧
     right_start45 1000 ≤ center_x 1000 464 ∧ right_x0 1000 464 = right_start45 1000) ∧
    (center_x 1000 100 < right_start45 1000 ∧ right_x0 1000 100 = center_x 1000 100) :=
  ⟨⟨(claim8_right_crop 1000 464).1, by decide,
    (claim8_right_crop 1000 464).2.1 (by decide)⟩,
   ⟨by decide, (claim8_right_crop 1000 100).2.2.1 (by decide)⟩⟩

/-- Helper: when the strict parse of the fence-stripped text fails and the
brace-slice fallback is absent or fails too, `parse_json_safely` returns the
empty dict. -/
theorem parse_json_safely_total_failure (t : Option String)
    (h1 : json_loads (fence_strip t) = none)
    (h2 : ∀ sub, braceSlice (fence_strip t) = some sub → json_loads sub = none) :
    parse_json_safely t = .obj [] := by
  simp only [parse_json_safely, h1]
  cases hb : braceSlice (fence_strip t) with
  | none => rfl
  | some sub => simp [h2 sub hb]

/-- C10: `parse_json_safely` is total — a function defined on every input,
including Python `None` (`Option.none`) and the empty string — and whenever
no JSON value can be recovered (the strict parse fails and the brace-slice
fallback is absent or also fails) it returns the empty dict. -/
theorem claim10_parse_safe_total (t : Option String)
    (h1 : json_loads (fence_strip t) = none)
    (h2 : ∀ sub, braceSlice (fence_strip t) = some sub → json_loads sub = none) :
    parse_json_safely t = Json.obj [] :=
  parse_json_safely_total_failure t h1 h2

/-- Witness for C10 at the Python `None` input: both stages fail and the
empty dict is returned. -/
theorem claim10_witness :
    json_loads (fence_strip none) = none ∧
    braceSlice (fence_strip none) = none ∧
    parse_json_safely none = Json.obj [] :=
  ⟨rfl, rfl,
   claim10_parse_safe_total none rfl
     (fun sub hsub => by
       simp [show braceSlice (fence_strip none) = none from rfl] at hsub)⟩

/-- C5 counterexample: on the wholly unparseable text `"hello"` both stages
fail, and the result is the bare empty dict with no `_raw` annotation
carrying the raw text — not "an empty mapping annotated with the raw text"
as the claim states. -/
theorem claim5_counterexample :
    json_loads (fence_strip (some "hello")) = none ∧
    braceSlice (fence_strip (some "hello")) = none ∧
    gemini_generate_json (some "hello") = Json.obj [] ∧
    rawTextField (gemini_generate_json (some "hello")) = none :=
  ⟨rfl, rfl, rfl, rfl⟩

/-- C5 (amended): when the raw model text cannot be parsed as JSON at all —
the strict parse of the stripped text fails and the brace-slice fallback is
absent or fails — `gemini_generate_json` returns the plain empty mapping,
with no raw-text annotation, and no exception is raised; the `{"_raw": text}`
annotation arises only when the text parses to a non-dict value. -/
theorem claim5_total_failure (respText : Option String)
    (h1 : json_loads (fence_strip
      (some (String.mk (pyStrip (respText.getD "").toList)))) = none)
    (h2 : ∀ sub, braceSlice (fence_strip
      (some (String.mk (pyStrip (respText.getD "").toList)))) = some sub →
      json_loads sub = none) :
    gemini_generate_json respText = Json.obj [] ∧
    rawTextField (gemini_generate_json respText) = none := by
  have hp := parse_json_safely_total_failure _ h1 h2
  refine ⟨?_, ?_⟩
  · simp only [gemini_generate_json, hp]
  · simp only [gemini_generate_json, rawTextField, hp]
    rfl

/-- Witness for C5 at the text `"nope!"`: the parse hypothesis holds and the
result is the unannotated empty dict. -/
theorem claim5_witness :
    json_loads (fence_strip (some (String.mk (pyStrip "nope!".toList)))) = none ∧
    (gemini_generate_json (some "nope!") = Json.obj [] ∧
     rawTextField (gemini_generate_json (some "nope!")) = none) :=
  ⟨rfl,
   claim5_total_failure (some "nope!") rfl
     (fun _ hsub => Option.noConfusion hsub)⟩

/-- C4: on the fenced malformed text, stripping the fence markers leaves text
whose strict parse fails, the brace-slice fallback recovers the JSON object
`{"contagem": {"aerosaculite": 3}}`, and normalizing its `contagem` yields
aerosaculite 3 with the other nine labels 0. -/
theorem claim4_fenced_recovery :
    json_loads (fence_strip (some c4text)) = none ∧
    (braceSlice (fence_strip (some c4text))).bind json_loads =
      some (Json.obj [("contagem", Json.obj [("aerosaculite", Json.num 3)])]) ∧
    parse_json_safely (some c4text) =
      Json.obj [("contagem", Json.obj [("aerosaculite", Json.num 3)])] ∧
    counts_from_result (parse_json_safely (some c4text)) =
      some [("aerosaculite", 3), ("celulite", 0), ("contusao", 0), ("hematomas", 0),
            ("hepatite", 0), ("micoplasmose", 0), ("pericardite", 0), ("peritonite", 0),
            ("salmonelose", 0), ("tuberculose", 0)] :=
  ⟨rfl, rfl, rfl, rfl⟩

/-- C9: normalization is the identity on already-valid counts: when every one
of the ten labels is bound to an integer in `[0, 10]` (given by `f`), the
output repeats those values unchanged. -/
theorem claim9_idempotent (raw : List (String × Json)) (f : String → Int)
    (hvalid : ∀ k ∈ LINES,
      dictGet raw k = some (.num (f k)) ∧ 0 ≤ f k ∧ f k ≤ 10) :
    normalize_counts_map raw = LINES.map (fun k => (k, f k)) := by
  unfold normalize_counts_map
  apply List.map_congr_left
  intro k hk
  obtain ⟨hget, h0, h10⟩ := hvalid k hk
  rw [hget]
  simp only [Option.getD_some, pyInt]
  have : clamp10 (f k) = f k := by
    simp [clamp10, max_def, min_def]
    split_ifs <;> omega
  rw [this]

/-- Witness for C9: normalizing the fully valid `c9input` changes nothing. -/
theorem claim9_witness :
    normalize_counts_map c9input =
      [("aerosaculite", 0), ("celulite", 1), ("contusao", 2), ("hematomas", 3),
       ("hepatite", 4), ("micoplasmose", 5), ("pericardite", 6), ("peritonite", 7),
       ("salmonelose", 8), ("tuberculose", 9)] :=
  claim9_idempotent c9input c9val (by
    intro k hk
    fin_cases hk <;> exact ⟨rfl, by decide, by decide⟩)

/-- C6 counterexample: when the model call raises, the request returns the
500 payload while the saved original, the ten crops and the sprite were all
created and none of them had deletion attempted — the claim's "deleted on
every path, including the exception path" fails. -/
theorem claim6_counterexample :
    (api_contar c6envBad).status = 500 ∧
    (api_contar c6envBad).remove_attempted = [] ∧
    "u/orig.jpg" ∈ (api_contar c6envBad).created ∧
    "u/sprite.jpg" ∈ (api_contar c6envBad).created ∧
    "u/r01.jpg" ∈ (api_contar c6envBad).created := by
  decide

/-- C6 (amended): local-file cleanup is attempted — best-effort, failures
ignored — on exactly the success path: a 200 response implies deletion was
attempted on every created file (the saved original, the sprite and the ten
crops, in the order `original, sprite, crops`), while any exception path
(500) returns without attempting any local deletion.  Every request ends in
one of those two statuses. -/
theorem claim6_cleanup_success_only (env : ReqEnv) :
    ((api_contar env).status = 200 →
      (api_contar env).remove_attempted.Perm (api_contar env).created) ∧
    ((api_contar env).status = 500 → (api_contar env).remove_attempted = []) ∧
    ((api_contar env).status = 200 ∨ (api_contar env).status = 500) := by
  unfold api_contar
  split_ifs <;> simp
  cases counts_from_result (gemini_generate_json env.resp_text) <;> simp
  exact (List.perm_append_singleton _ _).symm

/-- Witness for C6 (amended): the successful request attempts deletion of
exactly the created files, and the failed request of `c6envBad` attempts
none. -/
theorem claim6_witness :
    ((api_contar c6envGood).status = 200 ∧
     (api_contar c6envGood).remove_attempted.Perm (api_contar c6envGood).created) ∧
    ((api_contar c6envBad).status = 500 ∧
     (api_contar c6envBad).remove_attempted = []) :=
  ⟨⟨by decide, (claim6_cleanup_success_only c6envGood).1 (by decide)⟩,
   ⟨by decide, (claim6_cleanup_success_only c6envBad).2.1 (by decide)⟩⟩
